import Mathlib

/-!
Shallow embedding of the asynchronous artifact download queue of
`backend/app/services/download_queue.py` (class `DownloadQueue`, dataclass
`DownloadItem`, enum `DownloadStatus`), together with the slice of
`backend/app/services/model_downloader.py` (`ModelDownloader.download_model`)
that the queue interacts with.

Python floats (`progress`, `speed`) are modelled as rationals: the program only
ever stores exactly representable values in them (0.0, 100.0 and values copied
verbatim from a progress update).  Python ints are modelled as `Int`.
Timestamps (`time.time()`) are passed in explicitly as parameters.  The
in-memory dict `self.downloads` (insertion ordered, keyed by `item.id`) is
modelled as a `List DownloadItem` with insert-or-replace keyed on `id`.
-/

namespace DQ

/-- The `DownloadStatus` enum (download_queue.py lines 11-16). -/
inductive DownloadStatus where
  | QUEUED
  | DOWNLOADING
  | COMPLETED
  | FAILED
  | CANCELLED
deriving DecidableEq, Repr

/-- The `.value` of each enum member: the lowercase status string. -/
def DownloadStatus.value : DownloadStatus → String
  | .QUEUED => "queued"
  | .DOWNLOADING => "downloading"
  | .COMPLETED => "completed"
  | .FAILED => "failed"
  | .CANCELLED => "cancelled"

/-- The inverse lookup performed by `DownloadStatus(item.status)` in
`_load_queue` (line 55): a string is accepted only if it is the `.value` of
some member, otherwise Python raises `ValueError`. -/
def DownloadStatus.ofValue : String → Option DownloadStatus
  | "queued" => some .QUEUED
  | "downloading" => some .DOWNLOADING
  | "completed" => some .COMPLETED
  | "failed" => some .FAILED
  | "cancelled" => some .CANCELLED
  | _ => none

/-- The `DownloadItem` dataclass (download_queue.py lines 18-31). -/
structure DownloadItem where
  id : String
  model_id : String
  status : DownloadStatus
  progress : ℚ
  downloaded_bytes : Int
  total_bytes : Int
  speed : ℚ
  eta : Int
  error : Option String := none
  started_at : Option ℚ := none
  completed_at : Option ℚ := none
  local_path : Option String := none
deriving DecidableEq, Repr

/-- The in-memory table `self.downloads` in iteration order. -/
abbrev Table := List DownloadItem

/-- Dict lookup `self.downloads.get(download_id)`. -/
def findItem (table : Table) (i : String) : Option DownloadItem :=
  table.find? (fun it => it.id = i)

/-- Dict assignment `self.downloads[download_id] = download_item`: replaces an
entry with the same key in place, otherwise appends at the end (Python dicts
preserve the position of an existing key). -/
def insertOrReplace (table : Table) (item : DownloadItem) : Table :=
  if table.any (fun it => it.id = item.id) then
    table.map (fun it => if it.id = item.id then item else it)
  else
    table ++ [item]

/-- In-place mutation of the entry with key `i` (the Python code mutates the
shared `DownloadItem` object; when the object is still in the dict this is an
update of that entry, when it has been removed the dict is unaffected). -/
def updateItem (table : Table) (i : String) (f : DownloadItem → DownloadItem) :
    Table :=
  table.map (fun it => if it.id = i then f it else it)

/-- Dict deletion `del self.downloads[download_id]`. -/
def eraseItem (table : Table) (i : String) : Table :=
  table.filter (fun it => it.id ≠ i)

/-- Membership test `download_id in self.downloads`. -/
def hasItem (table : Table) (i : String) : Bool :=
  table.any (fun it => it.id = i)

/-- Line 79: `item.status in [DownloadStatus.QUEUED, DownloadStatus.DOWNLOADING]`. -/
def isActive (s : DownloadStatus) : Bool :=
  s = .QUEUED || s = .DOWNLOADING

/-- Lines 78-80 of `add_download`: scan for the first item with the same
`model_id` whose status is QUEUED or DOWNLOADING. -/
def scanActiveByModel (table : Table) (m : String) : Option DownloadItem :=
  table.find? (fun it => it.model_id = m && isActive it.status)

/-- Line 74: `download_id = f"{model_id}_{int(time.time())}"`. -/
def newDownloadId (m : String) (now : Int) : String :=
  m ++ "_" ++ toString now

/-- Lines 83-92: the fresh `DownloadItem` constructed by `add_download`. -/
def newDownloadItem (m : String) (now : Int) : DownloadItem :=
  { id := newDownloadId m now
    model_id := m
    status := .QUEUED
    progress := 0
    downloaded_bytes := 0
    total_bytes := 0
    speed := 0
    eta := 0 }

/-- Lines 199-207, body of `cancel_download` under the lock: returns the bool
result and the table after the mutation (the `_save_queue` call at line 205
does not change the in-memory table). -/
def cancelTable (table : Table) (i : String) (now : ℚ) : Bool × Table :=
  match findItem table i with
  | some item =>
      if isActive item.status then
        (true,
         updateItem table i
           (fun it => { it with status := .CANCELLED, completed_at := some now }))
      else (false, table)
  | none => (false, table)

/-- Lines 211-216, body of `remove_download` under the lock. -/
def removeTable (table : Table) (i : String) : Bool × Table :=
  if hasItem table i then (true, eraseItem table i) else (false, table)

/-- Lines 220-226, body of `clear_completed` under the lock: deletes every
COMPLETED item and counts them. -/
def clearCompletedTable (table : Table) : Int × Table :=
  ((table.filter (fun it => it.status = DownloadStatus.COMPLETED)).length,
   table.filter (fun it => it.status ≠ DownloadStatus.COMPLETED))

/-- Lines 188-189: `get_active_downloads`. -/
def activeDownloads (table : Table) : List DownloadItem :=
  table.filter (fun it => isActive it.status)

/-- Lines 194-195: `get_completed_downloads`. -/
def completedDownloads (table : Table) : List DownloadItem :=
  table.filter (fun it => it.status = DownloadStatus.COMPLETED)

/-- Lines 109-112 of the worker loop: find the first item in QUEUED status. -/
def scanQueuedFirst (table : Table) : Option DownloadItem :=
  table.find? (fun it => it.status = DownloadStatus.QUEUED)

/-- Lines 118-119 of the worker loop, executed OUTSIDE the lock: the selected
item is unconditionally marked DOWNLOADING and `started_at` is recorded (by
mutating the shared object; a no-op on the table if the entry was removed). -/
def markDownloading (table : Table) (i : String) (now : ℚ) : Table :=
  updateItem table i
    (fun it => { it with status := .DOWNLOADING, started_at := some now })

/-- A progress-update dict as read by `on_progress` (lines 129-135): each
`update.get(key, default)` is modelled by an optional field. -/
structure ProgressUpdate where
  downloaded_bytes? : Option Int := none
  total_bytes? : Option Int := none
  progress? : Option ℚ := none
  speed? : Option ℚ := none
  eta? : Option Int := none
deriving DecidableEq, Repr

/-- Lines 129-135: the field assignments performed on the current item once the
guard has passed. -/
def applyProgressUpdate (it : DownloadItem) (u : ProgressUpdate) : DownloadItem :=
  { it with
    downloaded_bytes := u.downloaded_bytes?.getD it.downloaded_bytes
    total_bytes := u.total_bytes?.getD it.total_bytes
    progress := u.progress?.getD it.progress
    speed := u.speed?.getD it.speed
    eta := u.eta?.getD it.eta }

/-- The argument `ModelDownloader.download_model` passes to its
`progress_callback` is a plain string (model_downloader.py lines 258 and 279),
although `on_progress` expects a dict. -/
inductive CallbackArg where
  | pyStrArg (s : String)
  | pyDictArg (u : ProgressUpdate)
deriving DecidableEq, Repr

/-- Lines 122-138, `on_progress`, applied to the table under the lock.  With a
string argument, `update.get("downloaded_bytes", ...)` raises
`AttributeError`, which the `except` at line 137 swallows, so the table is
unchanged.  With a dict, the guard at lines 126-128 makes the callback a no-op
unless the item still exists with status DOWNLOADING or QUEUED. -/
def onProgress (table : Table) (i : String) (arg : CallbackArg) : Table :=
  match arg with
  | .pyStrArg _ => table
  | .pyDictArg u =>
      match findItem table i with
      | none => table
      | some current =>
          if isActive current.status then
            updateItem table i (fun it => applyProgressUpdate it u)
          else table

/-- On a successful transfer `download_model` invokes the callback exactly
twice, with the strings at model_downloader.py lines 258 and 279. -/
def downloadModelCallbackArgs : List CallbackArg :=
  [.pyStrArg "Starting download...", .pyStrArg "Download completed!"]

/-- The dict returned by `ModelDownloader.download_model` (lines 285-301),
restricted to the keys the queue reads: `success`, `local_path`, `error`, and
`model_info["total_bytes"]` (`none` when `model_info` is absent or not a dict
or has no truthy `total_bytes`). -/
structure TransferResult where
  success : Bool
  local_path : Option String := none
  error : Option String := none
  model_info_total_bytes : Option Int := none
deriving DecidableEq, Repr

/-- Lines 146-158 (and the `except` branch, lines 161-167) of the worker loop:
completion handling.  The item is overwritten WITHOUT checking that it is
still DOWNLOADING; if it has been removed from the dict the mutation only
touches the dangling object, hence the table-level no-op. -/
def completionTable (table : Table) (i : String) (res : TransferResult)
    (now : ℚ) : Table :=
  if res.success then
    updateItem table i (fun it =>
      { it with
        status := .COMPLETED
        progress := 100
        completed_at := some now
        local_path := res.local_path
        total_bytes :=
          match res.model_info_total_bytes with
          | some tb => if tb ≠ 0 then tb else it.total_bytes
          | none => it.total_bytes })
  else
    updateItem table i (fun it =>
      { it with
        status := .FAILED
        error := some (res.error.getD "Unknown error")
        completed_at := some now })

/-! ## Persistence: `asdict`, `json.dump`, `_save_queue`, `_load_queue` -/

/-- Python values as they occur in the serialized queue document.
`pyEnum` is a `DownloadStatus` enum member: `dataclasses.asdict` does NOT
convert enum members to their `.value`, it deep-copies them. -/
inductive PyVal where
  | pyNone
  | pyStr (s : String)
  | pyInt (n : Int)
  | pyFloat (q : ℚ)
  | pyEnum (s : DownloadStatus)
  | pyList (xs : List PyVal)
  | pyDict (fields : List (String × PyVal))

/-- Whether `json.dump` accepts the value: the default JSON encoder raises
`TypeError` on a `DownloadStatus` enum member and accepts `None`, `str`,
`int`, `float`, lists and string-keyed dicts. -/
def jsonSerializable : PyVal → Bool
  | .pyNone => true
  | .pyStr _ => true
  | .pyInt _ => true
  | .pyFloat _ => true
  | .pyEnum _ => false
  | .pyList xs => xs.attach.all (fun x => jsonSerializable x.1)
  | .pyDict fs => fs.attach.all (fun f => jsonSerializable f.1.2)
decreasing_by
  all_goals simp_wf
  · have := List.sizeOf_lt_of_mem x.2; omega
  · have h1 := List.sizeOf_lt_of_mem f.2
    rcases f with ⟨⟨a, b⟩, hf⟩
    simp at h1 ⊢
    omega

def optStr : Option String → PyVal
  | none => .pyNone
  | some s => .pyStr s

def optFloat : Option ℚ → PyVal
  | none => .pyNone
  | some q => .pyFloat q

/-- `dataclasses.asdict(item)` (line 65): the field dict of a `DownloadItem`,
with `status` still an enum member. -/
def asdictItem (it : DownloadItem) : PyVal :=
  .pyDict
    [("id", .pyStr it.id),
     ("model_id", .pyStr it.model_id),
     ("status", .pyEnum it.status),
     ("progress", .pyFloat it.progress),
     ("downloaded_bytes", .pyInt it.downloaded_bytes),
     ("total_bytes", .pyInt it.total_bytes),
     ("speed", .pyFloat it.speed),
     ("eta", .pyInt it.eta),
     ("error", optStr it.error),
     ("started_at", optFloat it.started_at),
     ("completed_at", optFloat it.completed_at),
     ("local_path", optStr it.local_path)]

/-- Lines 64-66: the document `_save_queue` builds. -/
def queueDoc (table : Table) : PyVal :=
  .pyDict [("downloads", .pyList (table.map asdictItem))]

/-- The document `json.dump` successfully writes for a given table, or `none`
when the dump raises `TypeError` partway (leaving the already-truncated file
partially written; the exception is caught and only printed, line 69-70). -/
def saveDoc (table : Table) : Option PyVal :=
  if jsonSerializable (queueDoc table) then some (queueDoc table) else none

/-- Key lookup in a parsed JSON object (`dict.get`). -/
def getField (fs : List (String × PyVal)) (k : String) : Option PyVal :=
  (fs.find? (fun f => f.1 = k)).map (fun f => f.2)

def decodeStr : PyVal → Option String
  | .pyStr s => some s
  | _ => none

def decodeInt : PyVal → Option Int
  | .pyInt n => some n
  | _ => none

/-- A JSON number read into a float-typed field (ints are accepted, as in
Python where the dataclass performs no type checking). -/
def decodeFloat : PyVal → Option ℚ
  | .pyFloat q => some q
  | .pyInt n => some (n : ℚ)
  | _ => none

def decodeOptStr : PyVal → Option (Option String)
  | .pyNone => some none
  | .pyStr s => some (some s)
  | _ => none

def decodeOptFloat : PyVal → Option (Option ℚ)
  | .pyNone => some none
  | .pyFloat q => some (some q)
  | .pyInt n => some (some (n : ℚ))
  | _ => none

/-- Lines 54-55: `DownloadItem(**item_data)` followed by
`item.status = DownloadStatus(item.status)`.  The kwargs call requires every
non-default field to be present and every key to be a field name; the status
string must be a valid enum value or `DownloadStatus(...)` raises
`ValueError`.  (Python's dataclass performs no type checking; decoding is
restricted to well-typed records, the only ones this program produces.) -/
def decodeItem (fs : List (String × PyVal)) : Option DownloadItem := do
  let fieldNames := ["id", "model_id", "status", "progress", "downloaded_bytes",
    "total_bytes", "speed", "eta", "error", "started_at", "completed_at",
    "local_path"]
  if (fs.map (fun f => f.1)).all (fun k => fieldNames.contains k) then
    let i ← (getField fs "id").bind decodeStr
    let m ← (getField fs "model_id").bind decodeStr
    let st ← ((getField fs "status").bind decodeStr).bind DownloadStatus.ofValue
    let pr ← (getField fs "progress").bind decodeFloat
    let db ← (getField fs "downloaded_bytes").bind decodeInt
    let tb ← (getField fs "total_bytes").bind decodeInt
    let sp ← (getField fs "speed").bind decodeFloat
    let et ← (getField fs "eta").bind decodeInt
    let er ← ((getField fs "error").map decodeOptStr).getD (some none)
    let sa ← ((getField fs "started_at").map decodeOptFloat).getD (some none)
    let ca ← ((getField fs "completed_at").map decodeOptFloat).getD (some none)
    let lp ← ((getField fs "local_path").map decodeOptStr).getD (some none)
    pure { id := i, model_id := m, status := st, progress := pr,
           downloaded_bytes := db, total_bytes := tb, speed := sp, eta := et,
           error := er, started_at := sa, completed_at := ca, local_path := lp }
  else
    none

/-- Lines 53-56: the loading loop accumulates `self.downloads[item.id] = item`
record by record; an exception partway (a malformed record) aborts the loop
but the records already stored remain (the `except` at line 57 only prints). -/
def loadItemsAux (acc : Table) : List PyVal → Table
  | [] => acc
  | v :: rest =>
      match v with
      | .pyDict fs =>
          match decodeItem fs with
          | some it => loadItemsAux (insertOrReplace acc it) rest
          | none => acc
      | _ => acc

/-- Lines 47-58, `_load_queue`, starting from the empty table built in
`__init__`: `none` stands for a missing file or one whose contents
`json.load` rejects (empty, truncated or partial documents); in every failure
case the table stays empty. -/
def loadQueueTable : Option PyVal → Table
  | none => []
  | some (.pyDict fs) =>
      match getField fs "downloads" with
      | some (.pyList vs) => loadItemsAux [] vs
      | some _ => []
      | none => []
  | some _ => []

/-- One store round trip: what `_load_queue` recovers after `_save_queue`
wrote (or failed to write) the table.  When the dump raises, the queue file
has already been truncated and partially written, so the subsequent
`json.load` fails and the loaded table is empty. -/
def roundTrip (table : Table) : Table :=
  loadQueueTable (saveDoc table)

/-! ## File-system actions performed by `_save_queue` -/

def queueFileName : String := "download_queue.json"

/-- The observable file operations of one `_save_queue` body. -/
inductive FsAction where
  | openTrunc (path : String)
  | writeDoc (path : String) (doc : PyVal)
  | writeAborted (path : String)
  | rename (src dst : String)

def FsAction.isRename : FsAction → Bool
  | .rename _ _ => true
  | _ => false

def FsAction.path : FsAction → String
  | .openTrunc p => p
  | .writeDoc p _ => p
  | .writeAborted p => p
  | .rename _ dst => dst

/-- Lines 67-68: `open(self.queue_file, 'w')` truncates the target file in
place, then `json.dump` either writes the whole document or raises partway
(`writeAborted`), leaving a truncated/partial file.  No temporary file is
created and no rename is performed. -/
def saveTrace (table : Table) : List FsAction :=
  FsAction.openTrunc queueFileName ::
    (match saveDoc table with
     | some d => [FsAction.writeDoc queueFileName d]
     | none => [FsAction.writeAborted queueFileName])

/-- Contents of the queue file as far as `json.load` is concerned: `corrupt`
covers the empty and the partially-written file, both rejected by the
parser. -/
inductive QueueFile where
  | absent
  | complete (doc : PyVal)
  | corrupt

/-- Effect of one file action on the queue file (rename is never produced by
`saveTrace`, as proved below; it is mapped to the identity). -/
def applyFs (f : QueueFile) : FsAction → QueueFile
  | .openTrunc _ => .corrupt
  | .writeDoc _ d => .complete d
  | .writeAborted _ => .corrupt
  | .rename _ _ => f

/-- State of the queue file after executing a prefix of a save's actions on
top of an existing file: models a process crash `k` actions into the save. -/
def fileAfterPrefix (f : QueueFile) (ops : List FsAction) (k : Nat) : QueueFile :=
  (ops.take k).foldl applyFs f

/-- What `_load_queue` recovers from a given queue file state. -/
def loadFromFile : QueueFile → Table
  | .absent => []
  | .corrupt => []
  | .complete d => loadQueueTable (some d)

/-! ## Manager-facing operations with the lock made explicit

Every public operation's body is `with self._lock: ...`; `_save_queue`
(called while that lock is held) begins with `with self._lock:` on the same
non-reentrant `threading.Lock`, an acquisition that never returns.  `blocked`
records the table at the moment the thread blocks; `returns` carries the
value handed back to the caller.  The file-action list holds the writes
performed before returning (none of these paths reach a file write: the
blocking acquisition happens first). -/

inductive OpResult (α : Type) where
  | returns (val : α) (table : Table) (fileOps : List FsAction)
  | blocked (table : Table) (fileOps : List FsAction)

/-- Lines 72-100, `add_download`.  On the existing-active-item path (line 80)
the function returns the existing id from inside the `with` block, without
saving and without reaching `_process_queue`.  On the creation path it inserts
the new item and then calls `_save_queue` at line 95 while still holding the
lock, where it blocks forever (so `_process_queue` at line 98 is never
reached and no worker thread is started). -/
def addDownloadRun (table : Table) (m : String) (now : Int) : OpResult String :=
  match scanActiveByModel table m with
  | some item => .returns item.id table []
  | none => .blocked (insertOrReplace table (newDownloadItem m now)) []

/-- Lines 197-207, `cancel_download`: the success branch mutates the item and
then blocks inside `_save_queue` (line 205) before the `return True`; the
failure branches return `False` without saving. -/
def cancelRun (table : Table) (i : String) (now : ℚ) : OpResult Bool :=
  match cancelTable table i now with
  | (true, t2) => .blocked t2 []
  | (false, t2) => .returns false t2 []

/-- Lines 209-216, `remove_download`: same shape as cancel. -/
def removeRun (table : Table) (i : String) : OpResult Bool :=
  match removeTable table i with
  | (true, t2) => .blocked t2 []
  | (false, t2) => .returns false t2 []

/-- Lines 218-226, `clear_completed`: `_save_queue` is called unconditionally
at line 225, so the operation always blocks (even with nothing to clear). -/
def clearCompletedRun (table : Table) : OpResult Int :=
  .blocked (clearCompletedTable table).2 []

/-- Lines 175-178, `get_download_status`: lock, read, unlock. -/
def getDownloadStatusRun (table : Table) (i : String) :
    OpResult (Option DownloadItem) :=
  .returns (findItem table i) table []

/-- Lines 180-183, `get_all_downloads`. -/
def getAllDownloadsRun (table : Table) : OpResult (List DownloadItem) :=
  .returns table table []

/-- Lines 185-189, `get_active_downloads`. -/
def getActiveDownloadsRun (table : Table) : OpResult (List DownloadItem) :=
  .returns (activeDownloads table) table []

/-- Lines 191-195, `get_completed_downloads`. -/
def getCompletedDownloadsRun (table : Table) : OpResult (List DownloadItem) :=
  .returns (completedDownloads table) table []

/-! ## Interleaving semantics of the worker loop and the manager calls

This models the intended reentrant-lock reading of the code, in which each
`with self._lock:` block (and each lock-free code window of the worker loop)
is one atomic action: the re-acquisition deadlock inside `_save_queue` —
established separately on the `Run` functions above — is elided here so that
the logic of worker selection, marking, progress callbacks, completion
handling and cancellation can be analysed.  `_save_queue` never changes the
in-memory table, so it does not appear in the steps.  In this idealization
each `add_download` creation path reaches `_process_queue` (line 98), which
unconditionally creates and starts a new worker thread (lines 172-173) with
no check whether a worker is already alive; in the unmodified program the
deadlock at line 95 prevents line 98 from ever being reached, so these
traces describe how the worker-loop code behaves once it runs, not
executions the deadlocked program can exhibit. -/

/-- Where a worker thread is inside its `process` loop (lines 104-169). -/
inductive WorkerPhase where
  | scanning
  | selected (i : String)
  | inTransfer (i : String)
  | exited
deriving DecidableEq, Repr

structure SysState where
  table : Table
  workers : List WorkerPhase
  executorCalls : List String
deriving DecidableEq, Repr

/-- The atomic actions.  `workerScan` is the locked scan (lines 106-115);
`workerMark` is lines 118-120 and the `download_model` invocation at line 143
(both OUTSIDE the lock: the selected item is marked DOWNLOADING
unconditionally, even if it was cancelled after the scan, and the executor is
then invoked — the invoked item id is appended to `executorCalls`);
`workerFinish` is the completion handling (lines 146-169) after which the
loop iterates; `progressEvent` is one `on_progress` invocation during the
transfer; `cancelAct` is one `cancel_download` call; `enqueue` is one
`add_download` call. -/
inductive Act where
  | enqueue (m : String) (now : Int)
  | workerScan (w : Nat)
  | workerMark (w : Nat) (now : ℚ)
  | workerFinish (w : Nat) (res : TransferResult) (now : ℚ)
  | cancelAct (i : String) (now : ℚ)
  | progressEvent (w : Nat) (arg : CallbackArg)

def step (s : SysState) (a : Act) : SysState :=
  match a with
  | .enqueue m now =>
      match scanActiveByModel s.table m with
      | some _ => s
      | none =>
          { s with
            table := insertOrReplace s.table (newDownloadItem m now)
            workers := s.workers ++ [.scanning] }
  | .workerScan w =>
      match s.workers[w]? with
      | some .scanning =>
          match scanQueuedFirst s.table with
          | some item => { s with workers := s.workers.set w (.selected item.id) }
          | none => { s with workers := s.workers.set w .exited }
      | _ => s
  | .workerMark w now =>
      match s.workers[w]? with
      | some (.selected i) =>
          { s with
            table := markDownloading s.table i now
            workers := s.workers.set w (.inTransfer i)
            executorCalls := s.executorCalls ++ [i] }
      | _ => s
  | .workerFinish w res now =>
      match s.workers[w]? with
      | some (.inTransfer i) =>
          { s with
            table := completionTable s.table i res now
            workers := s.workers.set w .scanning }
      | _ => s
  | .cancelAct i now => { s with table := (cancelTable s.table i now).2 }
  | .progressEvent w arg =>
      match s.workers[w]? with
      | some (.inTransfer i) => { s with table := onProgress s.table i arg }
      | _ => s

/-- The state at process start with no persisted queue file. -/
def initState : SysState := { table := [], workers := [], executorCalls := [] }

def exec (s : SysState) (acts : List Act) : SysState :=
  acts.foldl step s

/-- The save discipline §4.4 of the specification describes, stated over the
file-action trace for comparison with `saveTrace` (this definition follows
the spec's words, not the code): write the full document to a temporary file
distinct from the target, then atomically rename it onto the target. -/
def SpecAtomicSave (table : Table) : Prop :=
  ∃ (tmp : String) (d : PyVal), tmp ≠ queueFileName ∧
    saveTrace table =
      [FsAction.openTrunc tmp, FsAction.writeDoc tmp d,
       FsAction.rename tmp queueFileName]

/-! ## Concrete fixtures used by the witnesses and counterexamples -/

/-- The item created by `add_download("demo/model-1")` at time 7. -/
def sampleQueued : DownloadItem := newDownloadItem "demo/model-1" 7

/-- A completed item as the worker leaves it. -/
def sampleCompleted : DownloadItem :=
  { id := "done_3", model_id := "done", status := .COMPLETED, progress := 100,
    downloaded_bytes := 42, total_bytes := 42, speed := 0, eta := 0,
    completed_at := some 5, local_path := some "/data/models/done" }

/-- `sampleQueued` after `cancel_download` at time 9. -/
def sampleCancelled9 : DownloadItem :=
  { sampleQueued with status := .CANCELLED, completed_at := some 9 }

/-- A successful `download_model` result. -/
def okRes : TransferResult :=
  { success := true, local_path := some "/data/models/demo_model-1",
    model_info_total_bytes := some 1000 }

/-- Enqueue, select, mark/start, cancel mid-flight, then the transfer
returns successfully. -/
def actsC1 : List Act :=
  [.enqueue "m" 1, .workerScan 0, .workerMark 0 2, .cancelAct "m_1" 3,
   .workerFinish 0 okRes 4]

/-- Enqueue, locked scan selects the item, a cancel lands in the unlocked
window before line 118, then the worker marks the item and invokes the
executor anyway. -/
def actsC6 : List Act :=
  [.enqueue "m" 5, .workerScan 0, .cancelAct "m_5" 10, .workerMark 0 11]

/-- An item the worker is currently transferring. -/
def sampleDownloading : DownloadItem :=
  { id := "dl_1", model_id := "dl", status := .DOWNLOADING, progress := 0,
    downloaded_bytes := 0, total_bytes := 0, speed := 0, eta := 0,
    started_at := some 2 }

/-- `sampleDownloading` after successful completion handling with `okRes`. -/
def completedByWorker : DownloadItem :=
  { sampleDownloading with
    status := .COMPLETED
    progress := 100
    completed_at := some 4
    local_path := okRes.local_path
    total_bytes := 1000 }

/-- A well-formed persisted item as an earlier version of the store could
have written it: status held as the lowercase string. -/
def persistedItem : DownloadItem :=
  { id := "m_1", model_id := "m", status := .COMPLETED, progress := 100,
    downloaded_bytes := 1000, total_bytes := 1000, speed := 0, eta := 0,
    started_at := some 1, completed_at := some 2,
    local_path := some "/data/models/m" }

def persistedItemRecord : PyVal :=
  .pyDict
    [("id", .pyStr "m_1"), ("model_id", .pyStr "m"),
     ("status", .pyStr "completed"), ("progress", .pyFloat 100),
     ("downloaded_bytes", .pyInt 1000), ("total_bytes", .pyInt 1000),
     ("speed", .pyFloat 0), ("eta", .pyInt 0), ("error", .pyNone),
     ("started_at", .pyFloat 1), ("completed_at", .pyFloat 2),
     ("local_path", .pyStr "/data/models/m")]

/-- A queue document holding exactly `persistedItem`. -/
def oneItemDoc : PyVal := .pyDict [("downloads", .pyList [persistedItemRecord])]

/-! ## Helper lemmas -/

theorem allAttachEq {α : Type} (xs : List α) (p : α → Bool) :
    xs.attach.all (fun x => p x.1) = xs.all p := by
  rw [Bool.eq_iff_iff, List.all_eq_true, List.all_eq_true]
  constructor
  · intro h x hx; exact h ⟨x, hx⟩ (List.mem_attach _ _)
  · intro h x _; exact h x.1 x.2

theorem jsonSerializable_pyList (xs : List PyVal) :
    jsonSerializable (.pyList xs) = xs.all jsonSerializable := by
  rw [jsonSerializable]
  exact allAttachEq xs jsonSerializable

theorem jsonSerializable_pyDict (fs : List (String × PyVal)) :
    jsonSerializable (.pyDict fs) = fs.all (fun f => jsonSerializable f.2) := by
  rw [jsonSerializable]
  exact allAttachEq fs (fun f => jsonSerializable f.2)

/-- An item dict produced by `asdict` always contains the raw enum member at
key "status", so `json.dump` rejects it. -/
theorem asdictItem_not_serializable (it : DownloadItem) :
    jsonSerializable (asdictItem it) = false := by
  simp [asdictItem, jsonSerializable_pyDict, jsonSerializable]

/-- The document for a non-empty table is never serializable. -/
theorem queueDoc_cons_not_serializable (it : DownloadItem) (t : Table) :
    jsonSerializable (queueDoc (it :: t)) = false := by
  simp [queueDoc, jsonSerializable_pyDict, jsonSerializable_pyList,
    asdictItem_not_serializable]

theorem saveDoc_cons (it : DownloadItem) (t : Table) : saveDoc (it :: t) = none := by
  simp [saveDoc, queueDoc_cons_not_serializable]

theorem saveDoc_nil : saveDoc [] = some (queueDoc []) := by
  simp [saveDoc, queueDoc, jsonSerializable_pyDict, jsonSerializable_pyList,
    jsonSerializable]

theorem mem_updateItem {table : Table} {i : String} {f : DownloadItem → DownloadItem}
    {it' : DownloadItem} (h : it' ∈ updateItem table i f) :
    ∃ it, it ∈ table ∧ it' = (if it.id = i then f it else it) := by
  rcases List.mem_map.mp (by simpa [updateItem] using h) with ⟨a, ha, he⟩
  exact ⟨a, ha, he.symm⟩

theorem find?_of_filter_singleton {α : Type} {p : α → Bool} {l : List α} {a : α}
    (h : l.filter p = [a]) : l.find? p = some a := by
  induction l with
  | nil => simp at h
  | cons b t ih =>
      by_cases hb : p b = true
      · rw [List.filter_cons_of_pos hb] at h
        rw [List.find?_cons_of_pos _ hb]
        simp at h
        exact congrArg some h.1
      · rw [List.filter_cons_of_neg (by simpa using hb)] at h
        rw [List.find?_cons_of_neg _ (by simpa using hb)]
        exact ih h

/-! ## The claims -/

/-- C1: the claim states that once an item is terminal no operation changes
its status, and in particular that the completion handler checks the item is
still DOWNLOADING before overwriting it.  The code has no such check (lines
146-158 assign unconditionally): in the trace `actsC1` the item is cancelled
mid-flight — `cancel_download` returns true and the item is CANCELLED, a
terminal status — yet when the transfer returns the completion handler
overwrites it to COMPLETED with progress 100, so the cancellation outcome is
lost instead of winning. -/
theorem C1_completion_overwrites_cancelled_item :
    (cancelTable (exec initState (actsC1.take 3)).table "m_1" 3).1 = true ∧
    (findItem (exec initState (actsC1.take 4)).table "m_1").map
      (fun it => it.status) = some .CANCELLED ∧
    (findItem (exec initState actsC1).table "m_1").map
      (fun it => (it.status, it.progress, it.completed_at)) =
      some (.COMPLETED, 100, some 4) := by
  refine ⟨?_, ?_, ?_⟩ <;> decide

/-- C2: the claim states that saving any table and loading it back yields an
equal table, with statuses persisted as lowercase strings.  In the code
`asdict` keeps the `DownloadStatus` enum member, which `json.dump` cannot
serialize: `_save_queue` raises `TypeError` (caught and only printed) for
every non-empty table, leaving a truncated file, so the subsequent load
returns the empty table.  Only the empty table round-trips. -/
theorem C2_store_roundtrip_fails (it : DownloadItem) (t : Table) :
    saveDoc (it :: t) = none ∧ roundTrip (it :: t) = [] ∧
    (it :: t) ≠ ([] : Table) ∧ roundTrip [] = [] := by
  refine ⟨saveDoc_cons it t, ?_, by simp, ?_⟩
  · unfold roundTrip
    rw [saveDoc_cons]
    rfl
  · unfold roundTrip
    rw [saveDoc_nil]
    rfl

/-- C3: the claim states that at most one item is DOWNLOADING at any
instant and that Enqueue idempotently ensures exactly one background worker
loop is running.  Nothing in the code implements this: `_process_queue`
(lines 171-173) would create and start a fresh daemon thread unconditionally
(there is no aliveness check anywhere in lines 102-173), and in fact
`add_download` never reaches it at all.  On the creation path the thread
blocks forever inside `_save_queue` at line 95, before `_process_queue` at
line 98; on the existing-active-item path it returns at line 80, also before
line 98.  So an Enqueue on an empty queue, a second Enqueue of a different
model on a startup-loaded table holding a queued item, and a re-Enqueue of
the same model all end without any worker loop running: Enqueue ensures
zero worker loops, not exactly one. -/
theorem C3_enqueue_never_reaches_worker_spawn :
    addDownloadRun [] "a" 1 = .blocked [newDownloadItem "a" 1] [] ∧
    addDownloadRun [newDownloadItem "a" 1] "b" 2 =
      .blocked [newDownloadItem "a" 1, newDownloadItem "b" 2] [] ∧
    addDownloadRun [newDownloadItem "a" 1] "a" 9 =
      .returns "a_1" [newDownloadItem "a" 1] [] :=
  ⟨rfl, rfl, rfl⟩

/-- C4: the claim states that every manager-facing operation terminates and
never blocks on the queue's own mutex.  In the code every mutating operation
calls `_save_queue` while holding the non-reentrant `threading.Lock`, and
`_save_queue` re-acquires that same lock, so the caller blocks forever:
`add_download` (creation path, before `_process_queue` is ever reached),
`cancel_download` (after mutating the item), `remove_download` and
`clear_completed` all block, while `get_download_status` returns. -/
theorem C4_mutating_operations_block_forever :
    addDownloadRun [] "demo/model-1" 7 = .blocked [sampleQueued] [] ∧
    cancelRun [sampleQueued] "demo/model-1_7" 9 = .blocked [sampleCancelled9] [] ∧
    removeRun [sampleQueued] "demo/model-1_7" = .blocked [] [] ∧
    clearCompletedRun [sampleCompleted] = .blocked [] [] ∧
    getDownloadStatusRun [sampleQueued] "demo/model-1_7" =
      .returns (some sampleQueued) [sampleQueued] [] :=
  ⟨rfl, rfl, rfl, rfl, rfl⟩

/-- C5 counterexample: the claim states that Save writes the serialized table
to a temporary file and atomically renames it onto the target.  The trace of
`_save_queue` opens the target itself with mode 'w' and writes it directly:
it never matches the temp-write-then-rename shape. -/
theorem C5_counterexample_no_temp_no_rename : ¬ SpecAtomicSave [] := by
  rintro ⟨tmp, d, hne, heq⟩
  have h2 : saveTrace [] =
      [FsAction.openTrunc queueFileName,
       FsAction.writeDoc queueFileName (queueDoc [])] := by
    unfold saveTrace
    rw [saveDoc_nil]
  rw [h2] at heq
  have hlen := congrArg List.length heq
  simp at hlen

/-- C5 (amended): `_save_queue` writes the queue file directly — every file
action of a save targets the queue file itself and none is a rename; the
first action truncates the target in place, so a save interrupted right
after the open leaves a file `json.load` rejects, and a subsequent load
returns the empty table instead of the last persisted one (here a table
holding one completed item). -/
theorem C5_amended_direct_truncating_write (table : Table) :
    (∀ op ∈ saveTrace table, op.isRename = false ∧ op.path = queueFileName) ∧
    fileAfterPrefix (QueueFile.complete oneItemDoc) (saveTrace table) 1 =
      QueueFile.corrupt ∧
    loadFromFile QueueFile.corrupt = [] ∧
    loadFromFile (QueueFile.complete oneItemDoc) = [persistedItem] := by
  refine ⟨?_, rfl, rfl, by decide⟩
  intro op hop
  unfold saveTrace at hop
  rcases List.mem_cons.mp hop with rfl | hop2
  · exact ⟨rfl, rfl⟩
  · rcases hsd : saveDoc table with _ | d
    · rw [hsd] at hop2
      simp only [List.mem_singleton] at hop2
      subst hop2
      exact ⟨rfl, rfl⟩
    · rw [hsd] at hop2
      simp only [List.mem_singleton] at hop2
      subst hop2
      exact ⟨rfl, rfl⟩

/-- Witness for C5 (amended), instantiated at the empty table and the save's
first file action. -/
theorem C5_amended_witness :
    (FsAction.openTrunc queueFileName).isRename = false ∧
    (FsAction.openTrunc queueFileName).path = queueFileName :=
  (C5_amended_direct_truncating_write []).1 (FsAction.openTrunc queueFileName)
    (by unfold saveTrace; exact List.mem_cons_self _ _)

/-- C6: the claim states that an item cancelled while QUEUED is never passed
to the Transfer Executor because worker selection and cancel both mutate
under the same lock.  The worker only SELECTS under the lock; the mark at
line 118 and the `download_model` call run outside it.  In the trace
`actsC6`, the cancel lands after the locked scan and succeeds on the still
QUEUED item, yet the worker then marks the CANCELLED item DOWNLOADING and
invokes the executor for it. -/
theorem C6_cancelled_queued_item_reaches_executor :
    (findItem (exec initState (actsC6.take 2)).table "m_5").map
      (fun it => it.status) = some .QUEUED ∧
    (cancelTable (exec initState (actsC6.take 2)).table "m_5" 10).1 = true ∧
    (findItem (exec initState (actsC6.take 3)).table "m_5").map
      (fun it => it.status) = some .CANCELLED ∧
    (exec initState (actsC6.take 3)).executorCalls = [] ∧
    (exec initState actsC6).executorCalls = ["m_5"] ∧
    (findItem (exec initState actsC6).table "m_5").map
      (fun it => it.status) = some .DOWNLOADING := by
  refine ⟨?_, ?_, ?_, ?_, ?_, ?_⟩ <;> decide

/-- C7: the claim states that enqueuing a model while the table already holds
an item for it in QUEUED or DOWNLOADING state returns that item's id, creates
no duplicate and modifies nothing.  When the table holds exactly one such
item, `add_download` returns its id from inside the lock without saving or
starting a worker, and an `enqueue` step leaves the system state unchanged. -/
theorem C7_idempotent_enqueue (table : Table) (m : String) (now : Int)
    (i : DownloadItem)
    (h : table.filter (fun it => it.model_id = m && isActive it.status) = [i]) :
    addDownloadRun table m now = .returns i.id table [] ∧
    ∀ s : SysState, s.table = table → step s (Act.enqueue m now) = s := by
  have hfind : scanActiveByModel table m = some i := find?_of_filter_singleton h
  constructor
  · unfold addDownloadRun
    rw [hfind]
  · intro s hs
    simp only [step]
    rw [hs, hfind]

/-- Witness for C7: re-enqueueing "demo/model-1" while its queued item is in
the table returns the existing id and leaves the table unchanged. -/
theorem C7_witness :
    addDownloadRun [sampleQueued] "demo/model-1" 99 =
      .returns sampleQueued.id [sampleQueued] [] :=
  (C7_idempotent_enqueue [sampleQueued] "demo/model-1" 99 sampleQueued
    (by decide)).1

/-- C8: the claim states that `downloaded_bytes` is non-decreasing across the
progress-callback updates applied while DOWNLOADING and that a successful
transfer ends with progress 100.  `download_model` only ever invokes the
callback with plain strings, on which `on_progress` fails at `update.get`
inside its `try` and changes nothing — so the applied updates leave
`downloaded_bytes` (and the whole table) unchanged, a constant hence
non-decreasing sequence — and the completion handler sets progress to 100 on
success. -/
theorem C8_monotone_progress_and_final_100 :
    (∀ (table : Table) (i : String) (arg : CallbackArg),
      arg ∈ downloadModelCallbackArgs → onProgress table i arg = table) ∧
    (∀ (table : Table) (i : String) (res : TransferResult) (now : ℚ)
      (it : DownloadItem), res.success = true →
      it ∈ completionTable table i res now → it.id = i → it.progress = 100) := by
  constructor
  · intro table i arg h
    have h2 : arg = CallbackArg.pyStrArg "Starting download..." ∨
        arg = CallbackArg.pyStrArg "Download completed!" := by
      simpa [downloadModelCallbackArgs] using h
    rcases h2 with rfl | rfl <;> rfl
  · intro table i res now it hsucc hmem hid
    unfold completionTable at hmem
    rw [if_pos hsucc] at hmem
    rcases mem_updateItem hmem with ⟨b, hb, he⟩
    by_cases hbid : b.id = i
    · rw [if_pos hbid] at he
      rw [he]
    · rw [if_neg hbid] at he
      rw [he] at hid
      exact absurd hid hbid

/-- Witness for C8: the first callback of a transfer leaves the table with
the in-flight item unchanged, and the item completed by `okRes` has progress
100. -/
theorem C8_witness :
    onProgress [sampleDownloading] "dl_1"
      (CallbackArg.pyStrArg "Starting download...") = [sampleDownloading] ∧
    completedByWorker.progress = 100 :=
  ⟨C8_monotone_progress_and_final_100.1 [sampleDownloading] "dl_1" _
      (by simp [downloadModelCallbackArgs]),
   C8_monotone_progress_and_final_100.2 [sampleDownloading] "dl_1" okRes 4
      completedByWorker (by decide) (by decide) (by decide)⟩

/-- C9: the claim states that `cancel_download` returns true exactly on an
existing QUEUED or DOWNLOADING item.  On such an item the code does set
CANCELLED and `completed_at`, but then calls `_save_queue` while still
holding the non-reentrant lock and blocks forever, never returning true; the
false branches (terminal item, cancelled item, unknown id) return false with
the table untouched as claimed. -/
theorem C9_cancel_never_returns_true :
    cancelRun [sampleQueued] "demo/model-1_7" 12 =
      .blocked [{ sampleQueued with status := .CANCELLED, completed_at := some 12 }] [] ∧
    cancelRun [sampleCompleted] "done_3" 12 = .returns false [sampleCompleted] [] ∧
    cancelRun [sampleCancelled9] "demo/model-1_7" 12 =
      .returns false [sampleCancelled9] [] ∧
    cancelRun [sampleQueued] "missing" 12 = .returns false [sampleQueued] [] :=
  ⟨rfl, rfl, rfl, rfl⟩

/-- C10: the claim states that the four query operations are pure reads and
that the filtered views partition by status exactly.  Each query returns
with the table unchanged and no file action, the active view holds precisely
the members with status QUEUED or DOWNLOADING, and the completed view holds
precisely the members with status COMPLETED. -/
theorem C10_queries_are_pure_reads (table : Table) (i : String) :
    getDownloadStatusRun table i = .returns (findItem table i) table [] ∧
    getAllDownloadsRun table = .returns table table [] ∧
    getActiveDownloadsRun table = .returns (activeDownloads table) table [] ∧
    getCompletedDownloadsRun table = .returns (completedDownloads table) table [] ∧
    (∀ x : DownloadItem, x ∈ activeDownloads table ↔
      x ∈ table ∧ (x.status = .QUEUED ∨ x.status = .DOWNLOADING)) ∧
    (∀ x : DownloadItem, x ∈ completedDownloads table ↔
      x ∈ table ∧ x.status = .COMPLETED) := by
  refine ⟨rfl, rfl, rfl, rfl, ?_, ?_⟩
  · intro x
    simp [activeDownloads, List.mem_filter, isActive]
  · intro x
    simp [completedDownloads, List.mem_filter]

end DQ
